import Mathlib

/-!
Verification of the lifecycle / threading contract of `juce_OpenGLContext.h`
(JUCE OpenGL module).  The repository provides only the pure interface header;
the render-loop, attachment and associated-object machinery live in the
implementation file that is not part of the sources, so every behavioural
definition below is modelled from the specification text (sections 4.2, 4.3
and 5 of the spec) and from the doc comments of the header itself.
-/

namespace JuceGL

/-- Modelled from the spec: the observable events emitted by the Cached Image
render thread (`juce_OpenGLContext.cpp`, CachedImage run loop, missing from
the sources).  Spec 4.3: per iteration make-current, optional
`newOpenGLContextCreated` (first iteration only), `renderOpenGL`, optional 2D
paint, swap; on shutdown `openGLContextClosing`, then release of associated
objects and of the native context. -/
inductive LoopEvent where
  | makeCurrent
  | newOpenGLContextCreated
  | renderOpenGL
  | paintComponent
  | swapBuffers
  | openGLContextClosing
  | releaseAssociatedObjects
  | releaseNativeContext
  deriving DecidableEq, Repr

/-- Modelled from the spec: one iteration of the render loop (spec 4.3:
"make the Native Context current on the render thread → if first iteration
since creation, invoke renderer.newOpenGLContextCreated() → invoke
renderer.renderOpenGL() if a renderer is set → if component painting is
enabled, run the 2D paint pass → swapBuffers()"). -/
def loopIteration (isFirst rendererSet paintEnabled : Bool) : List LoopEvent :=
  [LoopEvent.makeCurrent]
    ++ (if isFirst then [LoopEvent.newOpenGLContextCreated] else [])
    ++ (if rendererSet then [LoopEvent.renderOpenGL] else [])
    ++ (if paintEnabled then [LoopEvent.paintComponent] else [])
    ++ [LoopEvent.swapBuffers]

/-- Modelled from the spec: the first `n` iterations of the render loop after
a successful native-context creation, in order. -/
def loopIters (rendererSet paintEnabled : Bool) : Nat → List LoopEvent
  | 0 => []
  | n + 1 => loopIters rendererSet paintEnabled n
      ++ loopIteration (n == 0) rendererSet paintEnabled

/-- Modelled from the spec: the shutdown tail of the render thread (spec 4.3:
"on stop request, after the current iteration completes, invoke
renderer.openGLContextClosing() (skipped on platforms where this callback
cannot be made …), release all associated objects, release the Native
Context, exit thread").  `closingSupported` is false on the documented
platform limitation (Android, per the header comment at
`juce_OpenGLContext.h:66`). -/
def shutdownTail (rendererSet closingSupported : Bool) : List LoopEvent :=
  (if rendererSet && closingSupported then [LoopEvent.openGLContextClosing] else [])
    ++ [LoopEvent.releaseAssociatedObjects, LoopEvent.releaseNativeContext]

/-- Modelled from the spec: the full event trace of the render thread for one
native-context lifetime that performs `numFrames` loop iterations and then
shuts down. -/
def renderThreadTrace (numFrames : Nat) (rendererSet paintEnabled closingSupported : Bool) :
    List LoopEvent :=
  loopIters rendererSet paintEnabled numFrames ++ shutdownTail rendererSet closingSupported

/-- The first loop iteration starts with make-current followed immediately by
the creation callback, and the creation callback occurs nowhere later in that
iteration. -/
lemma loopIteration_first_decompose (r p : Bool) :
    ∃ body, loopIteration true r p
        = LoopEvent.makeCurrent :: LoopEvent.newOpenGLContextCreated :: body
      ∧ LoopEvent.newOpenGLContextCreated ∉ body := by
  cases r <;> cases p <;> exact ⟨_, rfl, by decide⟩

/-- Non-first loop iterations never emit the creation callback. -/
lemma created_not_mem_loopIteration_false (r p : Bool) :
    LoopEvent.newOpenGLContextCreated ∉ loopIteration false r p := by
  cases r <;> cases p <;> decide

/-- The shutdown tail never emits the creation callback. -/
lemma created_not_mem_shutdownTail (r c : Bool) :
    LoopEvent.newOpenGLContextCreated ∉ shutdownTail r c := by
  cases r <;> cases c <;> decide

/-- Any nonempty run of loop iterations is the first iteration followed by a
remainder that contains no creation callback. -/
lemma loopIters_succ_decompose (r p : Bool) :
    ∀ n, ∃ rest, loopIters r p (n + 1) = loopIteration true r p ++ rest
      ∧ LoopEvent.newOpenGLContextCreated ∉ rest := by
  intro n
  induction n with
  | zero => exact ⟨[], by simp [loopIters], by decide⟩
  | succ m ih =>
      obtain ⟨rest, hrest, hnotin⟩ := ih
      refine ⟨rest ++ loopIteration ((m + 1) == 0) r p, ?_, ?_⟩
      · show loopIters r p (m + 1) ++ loopIteration ((m + 1) == 0) r p = _
        rw [hrest, List.append_assoc]
      · have : ((m + 1 : Nat) == 0) = false := rfl
        rw [this]
        simp only [List.mem_append]
        exact fun h => h.elim hnotin (created_not_mem_loopIteration_false r p)

/-- The whole render-thread trace of at least one frame decomposes as
make-current and the creation callback followed by a tail without any further
creation callback. -/
lemma renderThreadTrace_decompose (n : Nat) (r p c : Bool) :
    ∃ tail, renderThreadTrace (n + 1) r p c
        = LoopEvent.makeCurrent :: LoopEvent.newOpenGLContextCreated :: tail
      ∧ LoopEvent.newOpenGLContextCreated ∉ tail := by
  obtain ⟨rest, hrest, hrestNotin⟩ := loopIters_succ_decompose r p n
  obtain ⟨body, hbody, hbodyNotin⟩ := loopIteration_first_decompose r p
  refine ⟨body ++ rest ++ shutdownTail r c, ?_, ?_⟩
  · show loopIters r p (n + 1) ++ shutdownTail r c = _
    rw [hrest, hbody]
    simp [List.append_assoc]
  · simp only [List.mem_append]
    rintro ((h | h) | h)
    · exact hbodyNotin h
    · exact hrestNotin h
    · exact created_not_mem_shutdownTail r c h

/-- If an element occurs in neither part surrounding its unique occurrence,
then any split of the list at that element is that occurrence. -/
lemma unique_split_eq {α : Type} [DecidableEq α] (a : α) :
    ∀ (l1 l2 pre post : List α), a ∉ l1 → a ∉ l2 →
      l1 ++ a :: l2 = pre ++ a :: post → pre = l1 ∧ post = l2 := by
  intro l1
  induction l1 with
  | nil =>
      intro l2 pre post _ h2 heq
      cases pre with
      | nil => simpa using heq.symm
      | cons x xs =>
          simp only [List.nil_append, List.cons_append, List.cons.injEq] at heq
          exact absurd (heq.2 ▸ List.mem_append_right xs (List.mem_cons_self a post))
            h2
  | cons y ys ih =>
      intro l2 pre post h1 h2 heq
      cases pre with
      | nil =>
          simp only [List.cons_append, List.nil_append, List.cons.injEq] at heq
          exact absurd (heq.1 ▸ List.mem_cons_self y ys) h1
      | cons x xs =>
          simp only [List.cons_append, List.cons.injEq] at heq
          have hmem : a ∉ ys := fun h => h1 (List.mem_cons_of_mem y h)
          obtain ⟨hx, hpost⟩ := ih l2 xs post hmem h2 heq.2
          exact ⟨by rw [heq.1, hx], hpost⟩

/-- The shutdown-only events never occur inside a loop iteration. -/
lemma shutdown_events_not_mem_loopIteration :
    ∀ f r p : Bool,
      LoopEvent.openGLContextClosing ∉ loopIteration f r p
      ∧ LoopEvent.releaseAssociatedObjects ∉ loopIteration f r p
      ∧ LoopEvent.releaseNativeContext ∉ loopIteration f r p := by
  decide

/-- The shutdown-only events never occur in any run of loop iterations. -/
lemma shutdown_events_not_mem_loopIters (r p : Bool) :
    ∀ n, LoopEvent.openGLContextClosing ∉ loopIters r p n
      ∧ LoopEvent.releaseAssociatedObjects ∉ loopIters r p n
      ∧ LoopEvent.releaseNativeContext ∉ loopIters r p n := by
  intro n
  induction n with
  | zero => exact ⟨by simp [loopIters], by simp [loopIters], by simp [loopIters]⟩
  | succ m ih =>
      have hiter := shutdown_events_not_mem_loopIteration ((m : Nat) == 0) r p
      refine ⟨?_, ?_, ?_⟩ <;>
        · show _ ∉ loopIters r p m ++ loopIteration ((m : Nat) == 0) r p
          simp only [List.mem_append]
          rintro (h | h)
          first
            | exact ih.1 h
            | exact ih.2.1 h
            | exact ih.2.2 h
          first
            | exact hiter.1 h
            | exact hiter.2.1 h
            | exact hiter.2.2 h

/-- C1: for every successful native-context creation (whose render thread
then performs at least one loop iteration), the renderer callback
`newOpenGLContextCreated` is invoked exactly once in the resulting
render-thread trace, and that invocation strictly precedes every
`renderOpenGL` invocation: every decomposition of the trace around a
`renderOpenGL` event has the creation callback in its prefix. -/
theorem c1_created_once_precedes_renders
    (numFrames : Nat) (h : 1 ≤ numFrames) (r p c : Bool) :
    (renderThreadTrace numFrames r p c).count LoopEvent.newOpenGLContextCreated = 1
    ∧ ∀ pre post,
        renderThreadTrace numFrames r p c = pre ++ LoopEvent.renderOpenGL :: post →
        LoopEvent.newOpenGLContextCreated ∈ pre := by
  obtain ⟨m, rfl⟩ : ∃ m, numFrames = m + 1 :=
    ⟨numFrames - 1, (Nat.succ_pred_eq_of_pos h).symm⟩
  obtain ⟨tail, htrace, hnotin⟩ := renderThreadTrace_decompose m r p c
  constructor
  · rw [htrace]
    simp [List.count_cons, List.count_eq_zero.mpr hnotin]
  · intro pre post heq
    rw [htrace] at heq
    cases pre with
    | nil => simp at heq
    | cons x xs =>
        cases xs with
        | nil => simp at heq
        | cons y ys =>
            simp only [List.cons_append, List.cons.injEq] at heq
            obtain ⟨-, hy, -⟩ := heq
            subst hy
            simp

/-- Witness for C1 at two frames with renderer, painting and closing all
enabled: the creation callback is counted once, and it is in the prefix of
the concrete decomposition of the trace at the second `renderOpenGL`. -/
theorem c1_created_once_precedes_renders_witness :
    (renderThreadTrace 2 true true true).count LoopEvent.newOpenGLContextCreated = 1
    ∧ LoopEvent.newOpenGLContextCreated ∈
        [LoopEvent.makeCurrent, LoopEvent.newOpenGLContextCreated,
         LoopEvent.renderOpenGL, LoopEvent.paintComponent,
         LoopEvent.swapBuffers, LoopEvent.makeCurrent] := by
  have h := c1_created_once_precedes_renders 2 (by decide) true true true
  exact ⟨h.1,
    h.2 [LoopEvent.makeCurrent, LoopEvent.newOpenGLContextCreated,
         LoopEvent.renderOpenGL, LoopEvent.paintComponent,
         LoopEvent.swapBuffers, LoopEvent.makeCurrent]
        [LoopEvent.paintComponent, LoopEvent.swapBuffers,
         LoopEvent.openGLContextClosing, LoopEvent.releaseAssociatedObjects,
         LoopEvent.releaseNativeContext] (by decide)⟩

/-- C2: on a platform that supports the closing callback, the renderer
callback `openGLContextClosing` occurs exactly once per render-thread trace,
the release of the associated objects and of the native context each occur
exactly once, and at the unique decomposition of the trace around
`openGLContextClosing` no `renderOpenGL` follows it and no release precedes
it; on the documented platform limitation the closing callback is not made
at all. -/
theorem c2_closing_once_after_renders_before_release
    (numFrames : Nat) (p : Bool) :
    ((renderThreadTrace numFrames true p true).count LoopEvent.openGLContextClosing = 1
     ∧ (renderThreadTrace numFrames true p true).count LoopEvent.releaseAssociatedObjects = 1
     ∧ (renderThreadTrace numFrames true p true).count LoopEvent.releaseNativeContext = 1
     ∧ ∀ pre post,
         renderThreadTrace numFrames true p true
           = pre ++ LoopEvent.openGLContextClosing :: post →
         LoopEvent.renderOpenGL ∉ post
         ∧ LoopEvent.releaseAssociatedObjects ∉ pre
         ∧ LoopEvent.releaseNativeContext ∉ pre)
    ∧ (renderThreadTrace numFrames true p false).count LoopEvent.openGLContextClosing = 0 := by
  have hiters := shutdown_events_not_mem_loopIters true p numFrames
  have htrace : renderThreadTrace numFrames true p true
      = loopIters true p numFrames ++ LoopEvent.openGLContextClosing ::
          [LoopEvent.releaseAssociatedObjects, LoopEvent.releaseNativeContext] := rfl
  refine ⟨⟨?_, ?_, ?_, ?_⟩, ?_⟩
  · rw [htrace, List.count_append, List.count_eq_zero.mpr hiters.1]
    decide
  · rw [htrace, List.count_append, List.count_eq_zero.mpr hiters.2.1]
    decide
  · rw [htrace, List.count_append, List.count_eq_zero.mpr hiters.2.2]
    decide
  · intro pre post heq
    rw [htrace] at heq
    obtain ⟨hpre, hpost⟩ := unique_split_eq LoopEvent.openGLContextClosing
      (loopIters true p numFrames)
      [LoopEvent.releaseAssociatedObjects, LoopEvent.releaseNativeContext]
      pre post hiters.1 (by decide) heq
    subst hpre
    subst hpost
    exact ⟨by decide, hiters.2.1, hiters.2.2⟩
  · have htr : renderThreadTrace numFrames true p false
        = loopIters true p numFrames
          ++ [LoopEvent.releaseAssociatedObjects, LoopEvent.releaseNativeContext] := rfl
    rw [htr, List.count_append, List.count_eq_zero.mpr hiters.1]
    decide

/-- Witness for C2 at one frame with painting enabled: the closing callback
is counted once, at the concrete decomposition no render follows it, and on
the limitation platform it is counted zero times. -/
theorem c2_closing_once_after_renders_before_release_witness :
    (renderThreadTrace 1 true true true).count LoopEvent.openGLContextClosing = 1
    ∧ LoopEvent.renderOpenGL ∉
        [LoopEvent.releaseAssociatedObjects, LoopEvent.releaseNativeContext]
    ∧ (renderThreadTrace 1 true true false).count LoopEvent.openGLContextClosing = 0 := by
  have h := c2_closing_once_after_renders_before_release 1 true
  exact ⟨h.1.1,
    (h.1.2.2.2 [LoopEvent.makeCurrent, LoopEvent.newOpenGLContextCreated,
                LoopEvent.renderOpenGL, LoopEvent.paintComponent,
                LoopEvent.swapBuffers]
        [LoopEvent.releaseAssociatedObjects, LoopEvent.releaseNativeContext]
        (by decide)).1,
    h.2⟩

/-- Modelled from the spec: what the Attachment observes about its target
component (visibility and current bounds), supplied by the component-system
notifications (spec 6, "Component lifecycle interface"). -/
structure CompInfo where
  visible : Bool
  width : Nat
  height : Nat
  deriving DecidableEq, Repr

/-- A component can host a native context when it is visible with nonzero
area (spec 4.2: "become-visible-with-size"). -/
def CompInfo.showable (i : CompInfo) : Bool :=
  i.visible && decide (0 < i.width) && decide (0 < i.height)

/-- Modelled from the spec: the stable states of the Attachment state machine
(spec 4.2).  The Creating and Destroying states are transient: the spec makes
their transitions synchronous inside a single event, so only the three stable
states are observable between events. -/
inductive AttachState where
  | unattached
  | waitingForVisibility
  | running
  deriving DecidableEq, Repr

/-- Modelled from the spec: the observable state of an OpenGLContext facade
together with its Attachment and Cached Image, whose implementation
(`juce_OpenGLContext.cpp`) is not part of the sources.  `nativeContext` is
the raw native handle (`getRawContext`), `contextsCreated` counts successful
native-context creations, `threadRunning` tracks the render thread, and
`ctxId` is the facade's identity used by the active-context registration. -/
structure ContextState where
  ctxId : Nat
  attachState : AttachState
  targetComponent : Option Nat
  nativeContext : Option Nat
  threadRunning : Bool
  contextsCreated : Nat
  width : Nat
  height : Nat
  shadersSupported : Bool
  swapCount : Nat
  deriving DecidableEq, Repr

/-- A freshly constructed context: no attachment, no native context, no
render thread. -/
def initContext : ContextState :=
  { ctxId := 1, attachState := AttachState.unattached, targetComponent := none,
    nativeContext := none, threadRunning := false, contextsCreated := 0,
    width := 0, height := 0, shadersSupported := false, swapCount := 0 }

/-- Modelled from the spec: successful synchronous native-context creation
(spec 4.2 Creating): allocates a fresh native handle, starts the render
thread and enters Running. -/
def createNative (s : ContextState) (i : CompInfo) : ContextState :=
  { s with attachState := AttachState.running,
           nativeContext := some (s.contextsCreated + 1),
           threadRunning := true,
           contextsCreated := s.contextsCreated + 1,
           width := i.width, height := i.height }

/-- Modelled from the spec: `detach()` — a no-op when no attachment exists
(header: "If the context has not been attached, this will do nothing"),
otherwise blocks until the render thread has exited and releases the native
resources and the attachment (spec 4.1). -/
def detachFn (s : ContextState) : ContextState :=
  if s.targetComponent = none then s
  else { s with attachState := AttachState.unattached, targetComponent := none,
                nativeContext := none, threadRunning := false }

/-- Modelled from the spec: `attachTo(component)` — idempotent no-op when
already attached to the same component; detaches first when attached
elsewhere; creates the native context at once when the component is visible
with nonzero area (and creation succeeds), otherwise waits for a
visibility/size notification (spec 4.1, 4.2). -/
def attachToFn (s : ContextState) (c : Nat) (i : CompInfo) (creationOk : Bool) :
    ContextState :=
  if s.targetComponent = some c then s
  else
    let s1 := { detachFn s with targetComponent := some c }
    if i.showable && creationOk then createNative s1 i
    else { s1 with attachState := AttachState.waitingForVisibility }

/-- Modelled from the spec: a visibility/size-changed notification (spec
4.2): from WaitingForVisibility a visible-with-size report creates the
native context (remaining retry-eligible on creation failure); while Running
a resize only updates the stored bounds. -/
def visEventFn (s : ContextState) (i : CompInfo) (creationOk : Bool) : ContextState :=
  match s.attachState with
  | AttachState.waitingForVisibility =>
      if i.showable && creationOk then createNative s i else s
  | AttachState.running => { s with width := i.width, height := i.height }
  | AttachState.unattached => s

/-- Modelled from the spec: a hide notification while Running (spec 4.2): on
platforms that require it, the native context and thread are torn down and
the Attachment returns to WaitingForVisibility. -/
def hideEventFn (s : ContextState) (platformNeedsRecreate : Bool) : ContextState :=
  match s.attachState, platformNeedsRecreate with
  | AttachState.running, true =>
      { s with attachState := AttachState.waitingForVisibility,
               nativeContext := none, threadRunning := false }
  | _, _ => s

/-- Modelled from the spec: `getRawContext()` — the native handle, none when
no native context exists. -/
def getRawContextFn (s : ContextState) : Option Nat := s.nativeContext

/-- Modelled from the spec: `getTargetComponent()` — the component this
context is currently attached to, or none (header lines 152-153). -/
def getTargetComponentFn (s : ContextState) : Option Nat := s.targetComponent

/-- Modelled from the spec: `isAttached()` — true only when attached to a
component AND on-screen, i.e. the Attachment is Running (header lines
146-150). -/
def isAttachedFn (s : ContextState) : Bool :=
  s.attachState == AttachState.running

/-- The facade operations a client or the component system can perform,
used to quantify over operation sequences. -/
inductive GLOp where
  | attachOp (c : Nat) (i : CompInfo) (creationOk : Bool)
  | visOp (i : CompInfo) (creationOk : Bool)
  | hideOp (platformNeedsRecreate : Bool)
  | detachOp
  deriving DecidableEq, Repr

/-- Interpretation of one facade operation. -/
def applyOp (s : ContextState) : GLOp → ContextState
  | GLOp.attachOp c i ok => attachToFn s c i ok
  | GLOp.visOp i ok => visEventFn s i ok
  | GLOp.hideOp pr => hideEventFn s pr
  | GLOp.detachOp => detachFn s

/-- Runs a sequence of facade operations from a state. -/
def runOps (s : ContextState) (ops : List GLOp) : ContextState :=
  ops.foldl applyOp s

/-- After `attachTo(c)` the context's target component is always `c`. -/
lemma attachToFn_target (s : ContextState) (c : Nat) (i : CompInfo) (ok : Bool) :
    (attachToFn s c i ok).targetComponent = some c := by
  unfold attachToFn
  split
  · assumption
  · split
    · simp [createNative]
    · rfl

/-- Detaching an attached context releases the thread and native context. -/
lemma detachFn_of_attached (s : ContextState) (c : Nat)
    (h : s.targetComponent = some c) :
    detachFn s
      = { s with attachState := AttachState.unattached, targetComponent := none,
                 nativeContext := none, threadRunning := false } := by
  simp [detachFn, h]

/-- C3: after any operation sequence ending in `attachTo` followed by
`detach`, the render thread has exited and `getRawContext` returns none; and
`detach` on a context that is not attached is a no-op leaving the whole state
unchanged. -/
theorem c3_detach_synchronous_and_noop_when_unattached
    (ops : List GLOp) (c : Nat) (i : CompInfo) (ok : Bool) :
    (runOps initContext (ops ++ [GLOp.attachOp c i ok, GLOp.detachOp])).threadRunning = false
    ∧ getRawContextFn
        (runOps initContext (ops ++ [GLOp.attachOp c i ok, GLOp.detachOp])) = none
    ∧ ∀ s : ContextState, s.targetComponent = none → detachFn s = s := by
  have hrun : runOps initContext (ops ++ [GLOp.attachOp c i ok, GLOp.detachOp])
      = detachFn (attachToFn (runOps initContext ops) c i ok) := by
    simp [runOps, List.foldl_append, applyOp]
  have hdet := detachFn_of_attached (attachToFn (runOps initContext ops) c i ok) c
    (attachToFn_target (runOps initContext ops) c i ok)
  refine ⟨?_, ?_, ?_⟩
  · rw [hrun, hdet]
  · rw [hrun, hdet]
    rfl
  · intro s h
    simp [detachFn, h]

/-- Witness for C3: an attach of a visible component followed by detach, from
a fresh context, ends with the thread exited and no raw context; detach on a
fresh context changes nothing. -/
theorem c3_detach_synchronous_and_noop_when_unattached_witness :
    (runOps initContext
        [GLOp.attachOp 7 ⟨true, 10, 10⟩ true, GLOp.detachOp]).threadRunning = false
    ∧ getRawContextFn
        (runOps initContext [GLOp.attachOp 7 ⟨true, 10, 10⟩ true, GLOp.detachOp]) = none
    ∧ detachFn initContext = initContext := by
  have h := c3_detach_synchronous_and_noop_when_unattached [] 7 ⟨true, 10, 10⟩ true
  exact ⟨h.1, h.2.1, h.2.2 initContext rfl⟩

/-- A visibility event that does not report a showable component leaves a
waiting context completely unchanged. -/
lemma visEventFn_not_showable (s : ContextState) (i : CompInfo) (ok : Bool)
    (hstate : s.attachState = AttachState.waitingForVisibility)
    (hbad : i.showable = false) :
    visEventFn s i ok = s := by
  simp [visEventFn, hstate, hbad]

/-- Runs a sequence of visibility/size notifications (each paired with
whether a creation attempt at that moment would succeed). -/
def runVisEvents (s : ContextState) (evs : List (CompInfo × Bool)) : ContextState :=
  evs.foldl (fun t e => visEventFn t e.1 e.2) s

/-- A waiting context is unchanged by any sequence of notifications that
never report a showable component. -/
lemma runVisEvents_not_showable :
    ∀ (evs : List (CompInfo × Bool)) (s : ContextState),
      s.attachState = AttachState.waitingForVisibility →
      (∀ e ∈ evs, (e.1 : CompInfo).showable = false) →
      runVisEvents s evs = s := by
  intro evs
  induction evs with
  | nil => intro s _ _; rfl
  | cons e es ih =>
      intro s hstate hbad
      have he : visEventFn s e.1 e.2 = s :=
        visEventFn_not_showable s e.1 e.2 hstate (hbad e (List.mem_cons_self e es))
      show runVisEvents (visEventFn s e.1 e.2) es = s
      rw [he]
      exact ih s hstate fun x hx => hbad x (List.mem_cons_of_mem e hx)

/-- Attaching a fresh context to a non-showable component records the target
and waits, creating nothing. -/
lemma attachToFn_init_not_showable (c : Nat) (i : CompInfo) (ok : Bool)
    (hbad : i.showable = false) :
    attachToFn initContext c i ok
      = { initContext with targetComponent := some c,
                           attachState := AttachState.waitingForVisibility } := by
  simp [attachToFn, initContext, detachFn, hbad]

/-- C4: attaching to a component that is invisible or has zero area creates
no native context, and none is created across any sequence of notifications
that keep reporting the component non-showable; the first notification
reporting it visible with nonzero area (with creation succeeding) creates
exactly one native context. -/
theorem c4_creation_deferred_until_visible
    (c : Nat) (i : CompInfo) (ok0 : Bool) (hbad0 : i.showable = false)
    (evs : List (CompInfo × Bool))
    (hevs : ∀ e ∈ evs, (e.1 : CompInfo).showable = false)
    (good : CompInfo) (hgood : good.showable = true) :
    (attachToFn initContext c i ok0).nativeContext = none
    ∧ (attachToFn initContext c i ok0).contextsCreated = 0
    ∧ (runVisEvents (attachToFn initContext c i ok0) evs).nativeContext = none
    ∧ (runVisEvents (attachToFn initContext c i ok0) evs).contextsCreated = 0
    ∧ (visEventFn (runVisEvents (attachToFn initContext c i ok0) evs) good true).nativeContext
        = some 1
    ∧ (visEventFn (runVisEvents (attachToFn initContext c i ok0) evs) good true).contextsCreated
        = 1 := by
  have h1 := attachToFn_init_not_showable c i ok0 hbad0
  have hwait : (attachToFn initContext c i ok0).attachState
      = AttachState.waitingForVisibility := by rw [h1]
  have h2 := runVisEvents_not_showable evs (attachToFn initContext c i ok0) hwait hevs
  rw [h1] at h2 ⊢
  rw [h2]
  refine ⟨rfl, rfl, rfl, rfl, ?_, ?_⟩ <;>
    simp [visEventFn, createNative, initContext, hgood]

/-- Witness for C4: attaching to an invisible zero-size component, then a
zero-width visible notification and an invisible one, creates nothing; a
visible 4-by-4 notification then creates exactly native context number 1. -/
theorem c4_creation_deferred_until_visible_witness :
    (attachToFn initContext 3 ⟨false, 0, 0⟩ true).nativeContext = none
    ∧ (attachToFn initContext 3 ⟨false, 0, 0⟩ true).contextsCreated = 0
    ∧ (runVisEvents (attachToFn initContext 3 ⟨false, 0, 0⟩ true)
        [(⟨true, 0, 5⟩, true), (⟨false, 4, 4⟩, true)]).nativeContext = none
    ∧ (runVisEvents (attachToFn initContext 3 ⟨false, 0, 0⟩ true)
        [(⟨true, 0, 5⟩, true), (⟨false, 4, 4⟩, true)]).contextsCreated = 0
    ∧ (visEventFn (runVisEvents (attachToFn initContext 3 ⟨false, 0, 0⟩ true)
        [(⟨true, 0, 5⟩, true), (⟨false, 4, 4⟩, true)]) ⟨true, 4, 4⟩ true).nativeContext
        = some 1
    ∧ (visEventFn (runVisEvents (attachToFn initContext 3 ⟨false, 0, 0⟩ true)
        [(⟨true, 0, 5⟩, true), (⟨false, 4, 4⟩, true)]) ⟨true, 4, 4⟩ true).contextsCreated
        = 1 :=
  c4_creation_deferred_until_visible 3 ⟨false, 0, 0⟩ true (by decide)
    [(⟨true, 0, 5⟩, true), (⟨false, 4, 4⟩, true)] (by decide)
    ⟨true, 4, 4⟩ (by decide)

/-- States that are not Unattached always carry a target component; preserved
by every facade operation. -/
lemma applyOp_target_inv (s : ContextState) (op : GLOp)
    (h : s.attachState ≠ AttachState.unattached → s.targetComponent ≠ none) :
    (applyOp s op).attachState ≠ AttachState.unattached →
      (applyOp s op).targetComponent ≠ none := by
  have hwait : s.attachState = AttachState.waitingForVisibility →
      s.targetComponent ≠ none := by
    intro hs
    exact h (by rw [hs]; intro hc; cases hc)
  have hrunning : s.attachState = AttachState.running →
      s.targetComponent ≠ none := by
    intro hs
    exact h (by rw [hs]; intro hc; cases hc)
  cases op with
  | attachOp c i ok =>
      intro _
      simp only [applyOp, attachToFn_target s c i ok]
      exact Option.some_ne_none c
  | visOp i ok =>
      cases hs : s.attachState with
      | unattached =>
          simp only [applyOp, visEventFn, hs]
          intro hne
          exact absurd rfl hne
      | waitingForVisibility =>
          simp only [applyOp, visEventFn, hs]
          split
          · intro _
            simp only [createNative]
            exact hwait hs
          · intro _
            exact hwait hs
      | running =>
          simp only [applyOp, visEventFn, hs]
          intro _
          exact hrunning hs
  | hideOp pr =>
      cases hs : s.attachState <;> cases pr <;>
        simp only [applyOp, hideEventFn, hs] <;>
        intro hne
      · exact absurd rfl hne
      · exact absurd rfl hne
      · exact hwait hs
      · exact hwait hs
      · exact hrunning hs
      · exact hrunning hs
  | detachOp =>
      simp only [applyOp, detachFn]
      split
      · exact h
      · intro hne
        exact absurd rfl hne

/-- Every state reachable from a fresh context by facade operations carries a
target component whenever it is not Unattached. -/
lemma runOps_target_inv (ops : List GLOp) :
    (runOps initContext ops).attachState ≠ AttachState.unattached →
      (runOps initContext ops).targetComponent ≠ none := by
  suffices h : ∀ (l : List GLOp) (s : ContextState),
      (s.attachState ≠ AttachState.unattached → s.targetComponent ≠ none) →
      (runOps s l).attachState ≠ AttachState.unattached →
        (runOps s l).targetComponent ≠ none by
    exact h ops initContext (fun hc => absurd rfl hc)
  intro l
  induction l with
  | nil => exact fun s hs => hs
  | cons op rest ih =>
      intro s hs
      exact ih (applyOp s op) (applyOp_target_inv s op hs)

/-- C10: after attaching a fresh context to a component that is not visible,
`getTargetComponent` already returns that component while `isAttached` is
still false; and in every reachable state `isAttached` can only be true when
a target component is attached (being on-screen, i.e. Running, is required on
top of mere attachment). -/
theorem c10_target_set_while_not_attached
    (c : Nat) (i : CompInfo) (ok : Bool) (hvis : i.visible = false) :
    getTargetComponentFn (attachToFn initContext c i ok) = some c
    ∧ isAttachedFn (attachToFn initContext c i ok) = false
    ∧ ∀ ops : List GLOp, isAttachedFn (runOps initContext ops) = true →
        getTargetComponentFn (runOps initContext ops) ≠ none := by
  have hbad : i.showable = false := by simp [CompInfo.showable, hvis]
  refine ⟨attachToFn_target initContext c i ok, ?_, ?_⟩
  · rw [attachToFn_init_not_showable c i ok hbad]
    rfl
  · intro ops hatt
    have hrun : (runOps initContext ops).attachState = AttachState.running := by
      have := hatt
      unfold isAttachedFn at this
      exact eq_of_beq this
    exact runOps_target_inv ops (by rw [hrun]; intro hc; cases hc)

/-- Witness for C10: attaching a fresh context to an invisible 5-by-5
component sets the target to component 2 with `isAttached` still false, and
after an attach that does create a context the target is present. -/
theorem c10_target_set_while_not_attached_witness :
    getTargetComponentFn (attachToFn initContext 2 ⟨false, 5, 5⟩ true) = some 2
    ∧ isAttachedFn (attachToFn initContext 2 ⟨false, 5, 5⟩ true) = false
    ∧ getTargetComponentFn
        (runOps initContext [GLOp.attachOp 2 ⟨true, 1, 1⟩ true]) ≠ none := by
  have h := c10_target_set_while_not_attached 2 ⟨false, 5, 5⟩ true rfl
  exact ⟨h.1, h.2.1, h.2.2 [GLOp.attachOp 2 ⟨true, 1, 1⟩ true] (by decide)⟩

/-- Looking up a key in a table from which that key has been filtered out
finds nothing. -/
lemma lookup_filter_out_key {κ β : Type} [BEq κ] [LawfulBEq κ] (k : κ)
    (l : List (κ × β)) :
    (l.filter fun pr => !(pr.1 == k)).lookup k = none := by
  induction l with
  | nil => rfl
  | cons p ps ih =>
      obtain ⟨a, b⟩ := p
      rw [List.filter_cons]
      by_cases hp : a = k
      · subst hp
        simp only [beq_self_eq_true, Bool.not_true, if_neg (Bool.false_ne_true)]
        exact ih
      · have h1 : (a == k) = false := beq_eq_false_iff_ne.mpr hp
        have h2 : (k == a) = false := beq_eq_false_iff_ne.mpr (Ne.symm hp)
        simp only [h1, Bool.not_false, if_pos rfl, List.lookup, h2]
        exact ih

/-- Modelled from the spec: the associated-object table owned by the Cached
Image (spec 3 "Associated Object", 4.1, 6): a name-keyed table of
reference-counted objects (objects are identified by an id here), together
with the objects whose ownership has been released so far. -/
structure AssocState where
  table : List (String × Nat)
  released : List Nat
  deriving DecidableEq, Repr

/-- Modelled from the spec: `getAssociatedObject(name)` — the object stored
under `name`, or none (header lines 182-187). -/
def getAssociatedObject (s : AssocState) (nm : String) : Option Nat :=
  s.table.lookup nm

/-- Modelled from the spec: `setAssociatedObject(name, newObject)` — replaces
the entry stored under `name`, releasing ownership of any previous value; a
none new-object clears the entry (spec 4.1; header lines 189-198). -/
def setAssociatedObject (s : AssocState) (nm : String) (newObject : Option Nat) :
    AssocState :=
  { table :=
      match newObject with
      | some o => (nm, o) :: s.table.filter fun pr => !(pr.1 == nm)
      | none => s.table.filter fun pr => !(pr.1 == nm),
    released :=
      match s.table.lookup nm with
      | some o => o :: s.released
      | none => s.released }

/-- Getting right after setting an object returns that object. -/
lemma get_set_assoc (s : AssocState) (nm : String) (o : Nat) :
    getAssociatedObject (setAssociatedObject s nm (some o)) nm = some o := by
  simp [getAssociatedObject, setAssociatedObject, List.lookup]

/-- C5: after `setAssociatedObject(x, A)` a get of `x` returns `A`; a
subsequent `setAssociatedObject(x, B)` releases `A` and a get then returns
`B`; and `setAssociatedObject(x, none)` clears the entry so a get returns
none. -/
theorem c5_associated_object_replace_release_clear
    (s : AssocState) (x : String) (A B : Nat) :
    getAssociatedObject (setAssociatedObject s x (some A)) x = some A
    ∧ A ∈ (setAssociatedObject (setAssociatedObject s x (some A)) x (some B)).released
    ∧ getAssociatedObject
        (setAssociatedObject (setAssociatedObject s x (some A)) x (some B)) x = some B
    ∧ getAssociatedObject
        (setAssociatedObject
          (setAssociatedObject (setAssociatedObject s x (some A)) x (some B)) x none) x
        = none := by
  refine ⟨get_set_assoc s x A, ?_, get_set_assoc _ x B, ?_⟩
  · show A ∈ (setAssociatedObject (setAssociatedObject s x (some A)) x (some B)).released
    have hx : List.lookup x ((x, A) :: (s.table.filter fun pr => !(pr.1 == x)))
        = some A := by simp [List.lookup]
    simp only [setAssociatedObject, hx]
    exact List.mem_cons_self A _
  · show ((setAssociatedObject (setAssociatedObject s x (some A)) x (some B)).table.filter
        fun pr => !(pr.1 == x)).lookup x = none
    exact lookup_filter_out_key x _

/-- Modelled from the spec: the repaint coalescing state of the Cached Image
(spec 4.1 `triggerRepaint`, 5 Cancellation): `pending` is the coalesced
repaint flag, `framesRendered` counts frames rendered so far. -/
structure RepaintState where
  pending : Bool
  framesRendered : Nat
  deriving DecidableEq, Repr

/-- Modelled from the spec: `triggerRepaint()` — a non-blocking hint: it only
sets the coalesced repaint flag and returns (spec 4.1, 5). -/
def triggerRepaint (s : RepaintState) : RepaintState :=
  { s with pending := true }

/-- Modelled from the spec: a frame boundary of the render loop: the
coalesced flag is consumed, producing exactly one extra frame if it was set
(spec 4.3, 5). -/
def frameBoundary (s : RepaintState) : RepaintState :=
  if s.pending then { pending := false, framesRendered := s.framesRendered + 1 }
  else s

/-- N successive repaint triggers with no frame boundary in between. -/
def triggerN (s : RepaintState) : Nat → RepaintState
  | 0 => s
  | n + 1 => triggerRepaint (triggerN s n)

/-- Triggers alone never render a frame. -/
lemma triggerN_framesRendered (s : RepaintState) :
    ∀ n, (triggerN s n).framesRendered = s.framesRendered := by
  intro n
  induction n with
  | zero => rfl
  | succ m ih => show (triggerN s m).framesRendered = _; exact ih

/-- At least one trigger leaves the coalesced flag set. -/
lemma triggerN_pending (s : RepaintState) (n : Nat) :
    (triggerN s (n + 1)).pending = true := rfl

/-- C6: `triggerRepaint` does nothing but set the coalesced flag (its model
is a total function, it cannot block), and N triggers between two frame
boundaries produce at most one extra frame — exactly one when N is at least
one, never N. -/
theorem c6_trigger_repaint_coalesced (s : RepaintState) (n : Nat) :
    triggerRepaint s = { s with pending := true }
    ∧ (triggerN s n).framesRendered = s.framesRendered
    ∧ (frameBoundary (triggerN s n)).framesRendered ≤ s.framesRendered + 1
    ∧ (1 ≤ n →
        (frameBoundary (triggerN s n)).framesRendered = s.framesRendered + 1) := by
  refine ⟨rfl, triggerN_framesRendered s n, ?_, ?_⟩
  · unfold frameBoundary
    split
    · rw [triggerN_framesRendered s n]
    · rw [triggerN_framesRendered s n]
      exact Nat.le_succ _
  · intro hn
    obtain ⟨m, rfl⟩ : ∃ m, n = m + 1 :=
      ⟨n - 1, (Nat.succ_pred_eq_of_pos hn).symm⟩
    unfold frameBoundary
    rw [if_pos (triggerN_pending s m)]
    show (triggerN s (m + 1)).framesRendered + 1 = _
    rw [triggerN_framesRendered s (m + 1)]

/-- Witness for C6: five triggers from an idle state render nothing by
themselves and yield exactly one frame at the next boundary. -/
theorem c6_trigger_repaint_coalesced_witness :
    triggerRepaint ⟨false, 0⟩ = ⟨true, 0⟩
    ∧ (triggerN ⟨false, 0⟩ 5).framesRendered = 0
    ∧ (frameBoundary (triggerN ⟨false, 0⟩ 5)).framesRendered ≤ 1
    ∧ (frameBoundary (triggerN ⟨false, 0⟩ 5)).framesRendered = 1 := by
  have h := c6_trigger_repaint_coalesced ⟨false, 0⟩ 5
  exact ⟨h.1, h.2.1, h.2.2.1, h.2.2.2 (by decide)⟩

/-- Modelled from the spec: the swap-interval state of the Native Context
(spec 4.1 `setSwapInterval`/`getSwapInterval`): whether the platform/driver
supports changing the swap interval, and the stored interval. -/
structure SwapState where
  supportsSwapControl : Bool
  interval : Int
  deriving DecidableEq, Repr

/-- Modelled from the spec: `setSwapInterval(numFramesPerSwap)` — stores the
interval and returns true when the platform supports the setting; otherwise
returns false and leaves the previous interval unchanged (header lines
217-226). -/
def setSwapInterval (s : SwapState) (numFramesPerSwap : Int) : Bool × SwapState :=
  if s.supportsSwapControl then (true, { s with interval := numFramesPerSwap })
  else (false, s)

/-- Modelled from the spec: `getSwapInterval()` — the stored interval
(header lines 228-231). -/
def getSwapInterval (s : SwapState) : Int :=
  s.interval

/-- C7: on a platform that supports disabling vertical sync,
`setSwapInterval 0` succeeds and a following `getSwapInterval` returns 0; on
a platform that does not, `setSwapInterval` returns false and
`getSwapInterval` still returns its prior value. -/
theorem c7_swap_interval_set_get (s : SwapState) (n : Int) :
    (s.supportsSwapControl = true →
        (setSwapInterval s 0).1 = true
        ∧ getSwapInterval (setSwapInterval s 0).2 = 0)
    ∧ (s.supportsSwapControl = false →
        (setSwapInterval s n).1 = false
        ∧ getSwapInterval (setSwapInterval s n).2 = getSwapInterval s) := by
  constructor
  · intro h
    constructor <;> simp [setSwapInterval, getSwapInterval, h]
  · intro h
    constructor <;> simp [setSwapInterval, getSwapInterval, h]

/-- Witness for C7: a supporting platform at interval 3 accepts 0 and then
reports 0; a non-supporting platform at interval 3 rejects 7 and still
reports 3. -/
theorem c7_swap_interval_set_get_witness :
    ((setSwapInterval ⟨true, 3⟩ 0).1 = true
      ∧ getSwapInterval (setSwapInterval ⟨true, 3⟩ 0).2 = 0)
    ∧ ((setSwapInterval ⟨false, 3⟩ 7).1 = false
      ∧ getSwapInterval (setSwapInterval ⟨false, 3⟩ 7).2 = 3) :=
  ⟨(c7_swap_interval_set_get ⟨true, 3⟩ 0).1 rfl,
   (c7_swap_interval_set_get ⟨false, 3⟩ 7).2 rfl⟩

/-- Modelled from the spec: binding the calling thread's entry of the
process-wide thread-local active-context registration to a context (spec 3
"Active Context registration", 9): any previous entry for that thread is
replaced. -/
def setActiveReg (l : List (Nat × Nat)) (tid ctx : Nat) : List (Nat × Nat) :=
  (tid, ctx) :: l.filter fun pr => !(pr.1 == tid)

/-- Modelled from the spec: clearing a thread's entry of the registration,
as done on context destruction or explicit release. -/
def clearActiveReg (l : List (Nat × Nat)) (tid : Nat) : List (Nat × Nat) :=
  l.filter fun pr => !(pr.1 == tid)

/-- Modelled from the spec: `getCurrentContext()` — the context registered
for the calling thread, or none (header lines 155-158). -/
def getCurrentContextFn (l : List (Nat × Nat)) (tid : Nat) : Option Nat :=
  l.lookup tid

/-- The registration maps each thread to at most one context. -/
def wellFormedReg (l : List (Nat × Nat)) : Prop :=
  ∀ t : Nat, (l.countP fun pr => pr.1 == t) ≤ 1

/-- Modelled from the spec: the registration as seen from inside a
`renderOpenGL` callback: the loop body made the invoking context current on
the render thread immediately before the callback (spec 4.3), i.e. performed
makeActive for it there. -/
def regAtRenderCallback (l : List (Nat × Nat)) (renderTid ctxId : Nat) :
    List (Nat × Nat) :=
  setActiveReg l renderTid ctxId

/-- Filtering never increases a count. -/
lemma countP_filter_le {α : Type} (p q : α → Bool) (l : List α) :
    (l.filter q).countP p ≤ l.countP p := by
  induction l with
  | nil => exact Nat.le_refl 0
  | cons x xs ih =>
      rw [List.filter_cons]
      by_cases hx : q x
      · rw [if_pos hx, List.countP_cons, List.countP_cons]
        exact Nat.add_le_add_right ih _
      · rw [if_neg hx, List.countP_cons]
        exact Nat.le_trans ih (Nat.le_add_right _ _)

/-- After filtering a key out, no entry with that key is counted. -/
lemma countP_key_filter_eq_zero (tid : Nat) (l : List (Nat × Nat)) :
    ((l.filter fun pr => !(pr.1 == tid)).countP fun pr => pr.1 == tid) = 0 := by
  rw [List.countP_eq_zero]
  intro pr hpr
  have hmem := List.mem_filter.mp hpr
  simpa using hmem.2

/-- Binding a thread keeps the at-most-one-entry-per-thread property. -/
lemma wellFormedReg_setActiveReg (l : List (Nat × Nat)) (tid ctx : Nat)
    (h : wellFormedReg l) : wellFormedReg (setActiveReg l tid ctx) := by
  intro t
  show ((tid, ctx) :: l.filter fun pr => !(pr.1 == tid)).countP
      (fun pr => pr.1 == t) ≤ 1
  rw [List.countP_cons]
  by_cases ht : tid = t
  · subst ht
    rw [countP_key_filter_eq_zero tid l]
    simp
  · have hbeq : ((tid, ctx).1 == t) = false := beq_eq_false_iff_ne.mpr ht
    rw [hbeq, if_neg (Bool.false_ne_true), Nat.add_zero]
    exact Nat.le_trans (countP_filter_le _ _ l) (h t)

/-- Clearing a thread keeps the at-most-one-entry-per-thread property. -/
lemma wellFormedReg_clearActiveReg (l : List (Nat × Nat)) (tid : Nat)
    (h : wellFormedReg l) : wellFormedReg (clearActiveReg l tid) := by
  intro t
  exact Nat.le_trans (countP_filter_le _ _ l) (h t)

/-- C8: the active-context registration keeps at most one context per thread
under binding and clearing; inside a `renderOpenGL` callback
`getCurrentContext` returns exactly the context that invoked the callback;
after clearing, and on a thread with no entry at all, it returns none. -/
theorem c8_current_context_thread_registration
    (reg : List (Nat × Nat)) (tid ctx : Nat) (hwf : wellFormedReg reg) :
    wellFormedReg (setActiveReg reg tid ctx)
    ∧ wellFormedReg (clearActiveReg reg tid)
    ∧ getCurrentContextFn (regAtRenderCallback reg tid ctx) tid = some ctx
    ∧ getCurrentContextFn (clearActiveReg reg tid) tid = none
    ∧ getCurrentContextFn [] tid = none := by
  refine ⟨wellFormedReg_setActiveReg reg tid ctx hwf,
    wellFormedReg_clearActiveReg reg tid hwf, ?_, ?_, rfl⟩
  · simp [getCurrentContextFn, regAtRenderCallback, setActiveReg, List.lookup]
  · exact lookup_filter_out_key tid reg

/-- Witness for C8: from the empty registration, binding context 5 on thread
0 keeps the registration well-formed and current-context queries answer as
specified. -/
theorem c8_current_context_thread_registration_witness :
    wellFormedReg (setActiveReg [] 0 5)
    ∧ wellFormedReg (clearActiveReg [] 0)
    ∧ getCurrentContextFn (regAtRenderCallback [] 0 5) 0 = some 5
    ∧ getCurrentContextFn (clearActiveReg [] 0) 0 = none
    ∧ getCurrentContextFn [] 0 = none :=
  c8_current_context_thread_registration [] 0 5 (by intro t; simp)

/-- Modelled from the spec: `makeActive()` — binds the native context to the
calling thread and updates the thread-local registration, returning true;
returns false leaving the registration unchanged when no native context
exists (spec 4.1; header lines 200-205). -/
def makeActiveFn (s : ContextState) (reg : List (Nat × Nat)) (tid : Nat) :
    Bool × List (Nat × Nat) :=
  match s.nativeContext with
  | none => (false, reg)
  | some _ => (true, setActiveReg reg tid s.ctxId)

/-- Modelled from the spec: `swapBuffers()` — presents the back buffer; a
no-op when no native context exists (spec 4.1; header lines 211-215). -/
def swapBuffersFn (s : ContextState) : ContextState :=
  match s.nativeContext with
  | none => s
  | some _ => { s with swapCount := s.swapCount + 1 }

/-- Modelled from the spec: `areShadersAvailable()` — capability query that
requires a created native context; false when none exists (spec 4.1; header
lines 175-176). -/
def areShadersAvailableFn (s : ContextState) : Bool :=
  s.nativeContext.isSome && s.shadersSupported

/-- C9: on a context with no created native context the native-dependent
operations degrade without error and without mutating any state:
`makeActive` returns false leaving the registration untouched,
`swapBuffers` is a no-op on the whole state, and `areShadersAvailable`
returns false. -/
theorem c9_no_native_context_degrades_gracefully
    (s : ContextState) (reg : List (Nat × Nat)) (tid : Nat)
    (h : s.nativeContext = none) :
    makeActiveFn s reg tid = (false, reg)
    ∧ swapBuffersFn s = s
    ∧ areShadersAvailableFn s = false := by
  refine ⟨?_, ?_, ?_⟩ <;>
    simp [makeActiveFn, swapBuffersFn, areShadersAvailableFn, h]

/-- Witness for C9: a freshly constructed context has no native context, and
the three operations degrade as stated. -/
theorem c9_no_native_context_degrades_gracefully_witness :
    makeActiveFn initContext [(2, 9)] 2 = (false, [(2, 9)])
    ∧ swapBuffersFn initContext = initContext
    ∧ areShadersAvailableFn initContext = false :=
  c9_no_native_context_degrades_gracefully initContext [(2, 9)] 2 rfl

end JuceGL
